import Mathlib

/-!
Verification development for a GA4 batch ETL pipeline.

The pipeline extracts raw GA4 event records for one date partition,
flattens them into a uniform row schema (transform_events), groups them
into session summaries (create_user_sessions_table) and user profiles
(create_user_profile_table), and loads the results into a warehouse
(load_user_profiles performs a split insert / merge-update keyed by
user_pseudo_id).

The embedding below mirrors the Python source.  DataFrames are lists of
rows; a column that is absent from a frame's schema is represented by the
corresponding Option field being none on every row (the one schema check
the source performs explicitly, the presence of the ga_session_id column
in the sessionizer, is kept as an explicit Boolean flag on the frame).
Float and double payloads are carried as rationals: the pipeline only
moves these values between rows, it never computes with them.  Wall-clock
reads (datetime.now) are passed in as an explicit argument.
-/

/-- A polymorphic GA4 parameter value: exactly the four typed slots of the
value STRUCT in the events export schema (string_value, int_value,
float_value, double_value), tagged by which slot was populated. -/
inductive GAValue where
  | vStr (s : String)
  | vInt (n : Int)
  | vFloat (x : ℚ)
  | vDouble (x : ℚ)
  deriving DecidableEq

/-- One entry of a GA4 event_params / user_properties array: a key plus a
value struct with four optional typed slots. -/
structure EventParam where
  key : String
  string_value : Option String
  int_value : Option Int
  float_value : Option ℚ
  double_value : Option ℚ
  deriving DecidableEq

/-- The scan loop of GA4Extractor.extract_event_params.extract_param
(src/extract.py): walk the parameter list in order; on a key match return
the first populated slot in the order string, int, float, double; when a
matching entry has all four slots null the loop simply continues with the
remaining entries. -/
def extractParamScan (key : String) : List EventParam → Option GAValue
  | [] => none
  | p :: rest =>
    if p.key = key then
      match p.string_value with
      | some s => some (GAValue.vStr s)
      | none =>
        match p.int_value with
        | some n => some (GAValue.vInt n)
        | none =>
          match p.float_value with
          | some x => some (GAValue.vFloat x)
          | none =>
            match p.double_value with
            | some x => some (GAValue.vDouble x)
            | none => extractParamScan key rest
    else extractParamScan key rest

/-- GA4Extractor.extract_event_params.extract_param (src/extract.py):
a None parameter collection yields None, otherwise the ordered scan. -/
def extract_param (params : Option (List EventParam)) (key : String) : Option GAValue :=
  match params with
  | none => none
  | some ps => extractParamScan key ps

/-- The device RECORD of a raw GA4 event (the fields the transformer
destructures). -/
structure DeviceInfo where
  category : Option String
  mobile_brand_name : Option String
  mobile_model_name : Option String
  operating_system : Option String
  language : Option String
  deriving DecidableEq

/-- The geo RECORD of a raw GA4 event. -/
structure GeoInfo where
  country : Option String
  region : Option String
  city : Option String
  deriving DecidableEq

/-- The traffic_source RECORD of a raw GA4 event. -/
structure TrafficSourceInfo where
  name : Option String
  medium : Option String
  source : Option String
  deriving DecidableEq

/-- One entry of the items REPEATED RECORD of a commerce event (the three
fields the transformer reads from items[0]). -/
structure ItemRecord where
  item_id : Option String
  item_name : Option String
  quantity : Option Int
  deriving DecidableEq

/-- One raw GA4 event row as selected by GA4Extractor.extract_events_for_date
(src/extract.py), restricted to the columns the transformer reads.  A raw
column that is absent (NULL nested record, missing items column) is none. -/
structure RawEvent where
  event_date : String
  event_timestamp : Int
  event_name : String
  user_id : Option String
  user_pseudo_id : String
  platform : Option String
  event_params : Option (List EventParam)
  device : Option DeviceInfo
  geo : Option GeoInfo
  traffic_source : Option TrafficSourceInfo
  items : Option (List ItemRecord)
  deriving DecidableEq

/-- The fixed commerce event-name list of
GA4Transformer._extract_ecommerce_params (src/transform.py). -/
def ecommerce_events : List String :=
  ["view_item", "add_to_cart", "begin_checkout", "purchase"]

/-- The isin membership test of _extract_ecommerce_params. -/
def isEcommerceEvent (n : String) : Bool :=
  ecommerce_events.contains n

/-- One flattened event row produced by GA4Transformer.transform_events
(src/transform.py) after the event_date / event_timestamp columns are
dropped.  date carries the partition date string; timestamp carries the
event timestamp in microseconds (pd.to_datetime with unit us is injective
on these, so the integer is kept).  Category-specific cells that the
source never writes for a row are none, matching NaN / missing column. -/
structure TransformedRow where
  event_name : String
  user_id : Option String
  user_pseudo_id : String
  platform : Option String
  date : String
  timestamp : Int
  device_category : Option String
  device_mobile_brand_name : Option String
  device_mobile_model_name : Option String
  device_operating_system : Option String
  device_language : Option String
  geo_country : Option String
  geo_region : Option String
  geo_city : Option String
  traffic_source_name : Option String
  traffic_source_medium : Option String
  traffic_source_source : Option String
  page_location : Option GAValue
  page_title : Option GAValue
  page_referrer : Option GAValue
  session_id : Option GAValue
  session_engaged : Option GAValue
  engagement_time_msec : Option GAValue
  ga_session_id : Option GAValue
  ga_session_number : Option GAValue
  link_url : Option GAValue
  link_text : Option GAValue
  link_classes : Option GAValue
  link_id : Option GAValue
  outbound : Option GAValue
  percent_scrolled : Option GAValue
  currency : Option GAValue
  value : Option GAValue
  transaction_id : Option GAValue
  tax : Option GAValue
  shipping : Option GAValue
  item_id : Option String
  item_name : Option String
  item_quantity : Option Int

/-- Per-row content of GA4Transformer._extract_click_params: a click
parameter cell is written only for rows whose event name is click. -/
def clickParam (e : RawEvent) (k : String) : Option GAValue :=
  if e.event_name = "click" then extract_param e.event_params k else none

/-- Per-row content of GA4Transformer._extract_scroll_params. -/
def scrollParam (e : RawEvent) (k : String) : Option GAValue :=
  if e.event_name = "scroll" then extract_param e.event_params k else none

/-- Per-row content of the parameter part of
GA4Transformer._extract_ecommerce_params. -/
def ecommerceParam (e : RawEvent) (k : String) : Option GAValue :=
  if isEcommerceEvent e.event_name then extract_param e.event_params k else none

/-- Per-row content of the items[0] part of
GA4Transformer._extract_ecommerce_params: for a commerce row, read a field
of the first entry of the optional items collection; an absent or empty
collection yields none. -/
def firstItemField {α : Type} (e : RawEvent) (f : ItemRecord → Option α) : Option α :=
  if isEcommerceEvent e.event_name then
    e.items.bind (fun its => its.head?.bind f)
  else none

/-- Flattening of a single raw event, the per-row content of
GA4Transformer.transform_events together with its four category helpers
(src/transform.py).  The common parameters (page_location .. ga_session_number)
are extracted for every row regardless of event name; the later
_extract_page_view_params pass is a value-level no-op because those three
columns already exist (the source skips any param already in the columns).
Category-specific cells are written only at the rows of the matching
category filter (click / scroll / ecommerce_events); all other rows keep
them absent.  Column materialisation in pandas depends on whether the
batch contains a row of the category at all, but a cell of a
non-materialised column and a NaN cell of a materialised one are both
absent, which none represents. -/
def transformEvent (e : RawEvent) : TransformedRow :=
  { event_name := e.event_name
    user_id := e.user_id
    user_pseudo_id := e.user_pseudo_id
    platform := e.platform
    date := e.event_date
    timestamp := e.event_timestamp
    device_category := e.device.bind (fun d => d.category)
    device_mobile_brand_name := e.device.bind (fun d => d.mobile_brand_name)
    device_mobile_model_name := e.device.bind (fun d => d.mobile_model_name)
    device_operating_system := e.device.bind (fun d => d.operating_system)
    device_language := e.device.bind (fun d => d.language)
    geo_country := e.geo.bind (fun g => g.country)
    geo_region := e.geo.bind (fun g => g.region)
    geo_city := e.geo.bind (fun g => g.city)
    traffic_source_name := e.traffic_source.bind (fun t => t.name)
    traffic_source_medium := e.traffic_source.bind (fun t => t.medium)
    traffic_source_source := e.traffic_source.bind (fun t => t.source)
    page_location := extract_param e.event_params "page_location"
    page_title := extract_param e.event_params "page_title"
    page_referrer := extract_param e.event_params "page_referrer"
    session_id := extract_param e.event_params "session_id"
    session_engaged := extract_param e.event_params "session_engaged"
    engagement_time_msec := extract_param e.event_params "engagement_time_msec"
    ga_session_id := extract_param e.event_params "ga_session_id"
    ga_session_number := extract_param e.event_params "ga_session_number"
    link_url := clickParam e "link_url"
    link_text := clickParam e "link_text"
    link_classes := clickParam e "link_classes"
    link_id := clickParam e "link_id"
    outbound := clickParam e "outbound"
    percent_scrolled := scrollParam e "percent_scrolled"
    currency := ecommerceParam e "currency"
    value := ecommerceParam e "value"
    transaction_id := ecommerceParam e "transaction_id"
    tax := ecommerceParam e "tax"
    shipping := ecommerceParam e "shipping"
    item_id := firstItemField e (fun it => it.item_id)
    item_name := firstItemField e (fun it => it.item_name)
    item_quantity := firstItemField e (fun it => it.quantity) }

/-- GA4Transformer.transform_events (src/transform.py): one output row per
input event, in order.  The source's early return on an empty frame
produces the empty frame, which coincides with mapping over []. -/
def transform_events (events : List RawEvent) : List TransformedRow :=
  events.map transformEvent

/-- The transformed events frame handed to the sessionizer.  The source
checks explicitly that the ga_session_id column exists on the frame's
schema; that check is kept as a Boolean flag.  All other columns are read
through first_event.get(col, None), for which a missing column and an
all-none column are indistinguishable, so they are represented by the row
fields alone. -/
structure EventsFrame where
  hasGaSessionIdCol : Bool
  rows : List TransformedRow

/-- First-occurrence deduplication (helper for the pandas groupby key
enumeration; the claims settled here do not depend on the order in which
groups are emitted, only on each group's membership and internal order). -/
def dedupFirstAux {α : Type} [DecidableEq α] (seen : List α) : List α → List α
  | [] => []
  | x :: xs =>
    if x ∈ seen then dedupFirstAux seen xs
    else x :: dedupFirstAux (x :: seen) xs

/-- The distinct group keys of a list, in first-occurrence order. -/
def dedupFirst {α : Type} [DecidableEq α] (l : List α) : List α :=
  dedupFirstAux [] l

/-- The (user_pseudo_id, ga_session_id) group keys of
events_df.groupby in create_user_sessions_table (src/transform.py).
pandas drops rows whose group key contains a null, so only rows with a
populated ga_session_id contribute a key. -/
def sessionKeys (rows : List TransformedRow) : List (String × GAValue) :=
  dedupFirst (rows.filterMap (fun r => r.ga_session_id.map (fun s => (r.user_pseudo_id, s))))

/-- The member rows of one (user_pseudo_id, ga_session_id) group, in the
order they appear in the input frame (pandas groupby preserves intra-group
order). -/
def groupRows (rows : List TransformedRow) (k : String × GAValue) : List TransformedRow :=
  rows.filter (fun r => r.user_pseudo_id = k.1 ∧ r.ga_session_id = some k.2)

/-- Minimum of a list of integers (pandas Series.min; only applied to
nonempty groups, the [] case is unreachable at call sites). -/
def listMin : List Int → Int
  | [] => 0
  | x :: xs => xs.foldl min x

/-- Maximum of a list of integers (pandas Series.max). -/
def listMax : List Int → Int
  | [] => 0
  | x :: xs => xs.foldl max x

/-- The integer payload of an extracted parameter cell, if any (helper for
the engagement-time sum, which pandas computes over the numeric values of
the column, skipping absent cells). -/
def gaIntPayload : GAValue → Option Int
  | GAValue.vInt n => some n
  | _ => none

/-- One session summary row as assembled by create_user_sessions_table
(src/transform.py).  session_duration_seconds is
(end - start).total_seconds(), i.e. the microsecond difference divided by
1e6, kept as an exact rational. -/
structure SessionRow where
  user_pseudo_id : String
  session_id : GAValue
  session_start_time : Int
  session_end_time : Int
  session_duration_seconds : ℚ
  pageviews : Nat
  engagement_time_msec : Int
  referrer : Option GAValue
  device_category : Option String
  operating_system : Option String
  country : Option String
  city : Option String
  traffic_source : Option String
  traffic_medium : Option String
  date : String
  deriving DecidableEq

/-- The loop body of create_user_sessions_table (src/transform.py) for one
group: min/max timestamps, duration, page_view count, engagement sum, and
the first-event attributes read from the group's first row in encounter
order (session_events.iloc[0]).  An empty member list yields no row; every
key produced by sessionKeys has at least one member. -/
def mkSessionRow (k : String × GAValue) (members : List TransformedRow) : Option SessionRow :=
  match members with
  | [] => none
  | first_event :: _ =>
    let ts := members.map (fun r => r.timestamp)
    let start_time := listMin ts
    let end_time := listMax ts
    some
      { user_pseudo_id := k.1
        session_id := k.2
        session_start_time := start_time
        session_end_time := end_time
        session_duration_seconds := ((end_time - start_time : Int) : ℚ) / 1000000
        pageviews := (members.filter (fun r => r.event_name = "page_view")).length
        engagement_time_msec :=
          (members.filterMap (fun r => r.engagement_time_msec.bind gaIntPayload)).sum
        referrer := first_event.page_referrer
        device_category := first_event.device_category
        operating_system := first_event.device_operating_system
        country := first_event.geo_country
        city := first_event.geo_city
        traffic_source := first_event.traffic_source_source
        traffic_medium := first_event.traffic_source_medium
        date := first_event.date }

/-- GA4Transformer.create_user_sessions_table (src/transform.py): an empty
frame returns the empty frame; a frame whose schema lacks the
ga_session_id column logs the missing-session-key error and returns the
empty frame; otherwise one summary row per (user_pseudo_id, ga_session_id)
group. -/
def create_user_sessions_table (f : EventsFrame) : List SessionRow :=
  if f.rows.isEmpty then []
  else if !f.hasGaSessionIdCol then []
  else (sessionKeys f.rows).filterMap (fun k => mkSessionRow k (groupRows f.rows k))

/-- Stable insertion (descending by count) for the value_counts ranking:
an element is placed before the first entry whose count is not larger, so
equal-count entries keep their first-occurrence order. -/
def insertByCount (p : String × Nat) : List (String × Nat) → List (String × Nat)
  | [] => [p]
  | q :: qs => if p.2 < q.2 then q :: insertByCount p qs else p :: q :: qs

/-- Stable sort by descending count. -/
def sortByCountDesc : List (String × Nat) → List (String × Nat)
  | [] => []
  | p :: ps => insertByCount p (sortByCountDesc ps)

/-- pandas Series.value_counts over the non-null values of a column:
each distinct value with its frequency, ranked by descending frequency
(NaN values are dropped before counting). -/
def value_counts (vs : List String) : List (String × Nat) :=
  sortByCountDesc ((dedupFirst vs).map (fun v => (v, vs.count v)))

/-- The mode statistic of create_user_profile_table (src/transform.py):
counts.index[0] when value_counts is nonempty, None otherwise.  The input
is the raw column of the group; null cells are dropped by value_counts. -/
def mostCommonValue (vs : List (Option String)) : Option String :=
  ((value_counts (vs.filterMap id)).head?).map (fun p => p.1)

/-- One user profile row as assembled by create_user_profile_table
(src/transform.py).  first_seen / last_seen / last_updated carry
microsecond timestamps; last_updated is the wall-clock reading
(datetime.now), passed in explicitly. -/
structure ProfileRow where
  user_pseudo_id : String
  first_seen : Int
  last_seen : Int
  session_count : Nat
  event_count : Nat
  most_used_device : Option String
  most_used_os : Option String
  country : Option String
  last_updated : Int
  deriving DecidableEq

/-- The distinct user_pseudo_id group keys of events_df.groupby in
create_user_profile_table. -/
def userKeys (rows : List TransformedRow) : List String :=
  dedupFirst (rows.map (fun r => r.user_pseudo_id))

/-- The member rows of one user group, in input order. -/
def userRows (rows : List TransformedRow) (uid : String) : List TransformedRow :=
  rows.filter (fun r => r.user_pseudo_id = uid)

/-- The loop body of create_user_profile_table (src/transform.py) for one
user group: min/max timestamps, nunique of the non-null session ids,
event count, and the three mode statistics.  The source's column-existence
branches (missing column gives session_count 0 and None modes) coincide
with the all-none column they imply here. -/
def mkProfileRow (uid : String) (user_events : List TransformedRow) (now : Int) :
    Option ProfileRow :=
  match user_events with
  | [] => none
  | _ :: _ =>
    let ts := user_events.map (fun r => r.timestamp)
    some
      { user_pseudo_id := uid
        first_seen := listMin ts
        last_seen := listMax ts
        session_count := (dedupFirst (user_events.filterMap (fun r => r.ga_session_id))).length
        event_count := user_events.length
        most_used_device := mostCommonValue (user_events.map (fun r => r.device_category))
        most_used_os := mostCommonValue (user_events.map (fun r => r.device_operating_system))
        country := mostCommonValue (user_events.map (fun r => r.geo_country))
        last_updated := now }

/-- GA4Transformer.create_user_profile_table (src/transform.py): an empty
frame returns the empty frame, otherwise one profile row per distinct
user_pseudo_id. -/
def create_user_profile_table (rows : List TransformedRow) (now : Int) : List ProfileRow :=
  if rows.isEmpty then []
  else (userKeys rows).filterMap (fun uid => mkProfileRow uid (userRows rows uid) now)

/-- The new/update split of GA4Loader.load_user_profiles (src/load.py):
rows whose user_pseudo_id is not among the existing stored keys become the
insert batch; rows whose key is among them become the update batch. -/
def load_user_profiles_split (df : List ProfileRow) (existing_user_ids : List String) :
    List ProfileRow × List ProfileRow :=
  (df.filter (fun r => r.user_pseudo_id ∉ existing_user_ids),
   df.filter (fun r => r.user_pseudo_id ∈ existing_user_ids))

/-- The WHEN MATCHED THEN UPDATE SET clause of the MERGE statement in
GA4Loader.load_user_profiles (src/load.py): exactly last_seen,
session_count, event_count, most_used_device, most_used_os, country and
last_updated are taken from the incoming row; user_pseudo_id and
first_seen keep the stored values. -/
def mergeProfile (t s : ProfileRow) : ProfileRow :=
  { t with
    last_seen := s.last_seen
    session_count := s.session_count
    event_count := s.event_count
    most_used_device := s.most_used_device
    most_used_os := s.most_used_os
    country := s.country
    last_updated := s.last_updated }

/-- The effect of the MERGE statement on the stored user_profiles table:
each stored row matched by an incoming update row (ON T.user_pseudo_id =
S.user_pseudo_id) is updated per mergeProfile; unmatched stored rows are
untouched.  The update batch holds one row per user_pseudo_id (it comes
from a groupby), so taking the first match is exact. -/
def applyProfileMerge (stored updates : List ProfileRow) : List ProfileRow :=
  stored.map (fun t =>
    match updates.find? (fun s => s.user_pseudo_id == t.user_pseudo_id) with
    | some s => mergeProfile t s
    | none => t)

/-- The read-back of existing profile keys in GA4Loader.load_user_profiles
(src/load.py): the stored user_pseudo_ids restricted by the IN UNNEST
membership test to the ids of the incoming batch. -/
def existingProfileKeys (stored : List ProfileRow) (df : List ProfileRow) : List String :=
  (stored.map (fun t => t.user_pseudo_id)).filter
    (fun k => k ∈ df.map (fun r => r.user_pseudo_id))

/-- The stored user_profiles table after GA4Loader.load_user_profiles
(src/load.py): matched stored rows merged, then the new rows appended
(WRITE_APPEND).  An empty incoming frame is skipped and leaves the table
unchanged. -/
def load_user_profiles (stored df : List ProfileRow) : List ProfileRow :=
  if df.isEmpty then stored
  else
    let split := load_user_profiles_split df (existingProfileKeys stored df)
    applyProfileMerge stored split.2 ++ split.1

/-- One call to the warehouse sink, as issued by process_single_date
(src/main.py). -/
inductive SinkCall where
  | loadEvents (rows : List TransformedRow) (target_date : String)
  | loadSessions (rows : List SessionRow) (target_date : String)
  | loadProfiles (rows : List ProfileRow)

/-- The per-date statistics map of process_single_date (src/main.py),
restricted to the three counters that are always present. -/
structure DateStats where
  events_processed : Nat
  sessions_processed : Nat
  users_processed : Nat
  deriving DecidableEq

/-- process_single_date (src/main.py) after extraction: an empty extracted
batch returns the zero statistics immediately and issues no sink call;
otherwise the batch is flattened, sessionized and aggregated, and the
three loads are issued.  now is the wall clock passed to the profile
aggregation. -/
def process_single_date (events_df : List RawEvent) (now : Int) (target_date : String) :
    DateStats × List SinkCall :=
  if events_df.isEmpty then
    ({ events_processed := 0, sessions_processed := 0, users_processed := 0 }, [])
  else
    let transformed := transform_events events_df
    let sessions := create_user_sessions_table { hasGaSessionIdCol := true, rows := transformed }
    let users := create_user_profile_table transformed now
    ({ events_processed := transformed.length
       sessions_processed := sessions.length
       users_processed := users.length },
     [SinkCall.loadEvents transformed target_date,
      SinkCall.loadSessions sessions target_date,
      SinkCall.loadProfiles users])

/-- Modelled from the spec's words (section 4.1, the lookup behaviour that
claim C3 restates): iterate in order; for an entry whose key matches,
inspect the value slots in the fixed priority order string, integer,
float, and return the first non-null one; an entry whose slots are all
null does not stop the scan.  This differs from the source scan only in
omitting the double_value slot. -/
def lookupSpecScan (key : String) : List EventParam → Option GAValue
  | [] => none
  | p :: rest =>
    if p.key = key then
      match p.string_value with
      | some s => some (GAValue.vStr s)
      | none =>
        match p.int_value with
        | some n => some (GAValue.vInt n)
        | none =>
          match p.float_value with
          | some x => some (GAValue.vFloat x)
          | none => lookupSpecScan key rest
    else lookupSpecScan key rest

/-- Modelled from the spec's words: the lookup contract of section 4.1
with an absent collection yielding absent. -/
def lookupSpec (params : Option (List EventParam)) (key : String) : Option GAValue :=
  match params with
  | none => none
  | some ps => lookupSpecScan key ps

/-- Example raw click event carrying a page_location parameter and a
session id among its event parameters. -/
def clickRawEvent : RawEvent :=
  { event_date := "20240115", event_timestamp := 1000000, event_name := "click",
    user_id := none, user_pseudo_id := "u1", platform := some "WEB",
    event_params := some
      [{ key := "page_location", string_value := some "https://example.com/landing",
         int_value := none, float_value := none, double_value := none },
       { key := "ga_session_id", string_value := none, int_value := some 100,
         float_value := none, double_value := none }],
    device := none, geo := none, traffic_source := none, items := none }

/-- Example flattened base row: a page_view with a session id and no
attribute columns populated. -/
def baseRow : TransformedRow :=
  { event_name := "page_view", user_id := none, user_pseudo_id := "u1",
    platform := some "WEB", date := "20240115", timestamp := 0,
    device_category := none, device_mobile_brand_name := none,
    device_mobile_model_name := none, device_operating_system := none,
    device_language := none, geo_country := none, geo_region := none, geo_city := none,
    traffic_source_name := none, traffic_source_medium := none,
    traffic_source_source := none, page_location := none, page_title := none,
    page_referrer := none, session_id := none, session_engaged := none,
    engagement_time_msec := none, ga_session_id := some (GAValue.vInt 100),
    ga_session_number := none, link_url := none, link_text := none,
    link_classes := none, link_id := none, outbound := none, percent_scrolled := none,
    currency := none, value := none, transaction_id := none, tax := none,
    shipping := none, item_id := none, item_name := none, item_quantity := none }

/-- Example frame in which the group's first row in encounter order has
the larger timestamp (the input is not timestamp-sorted). -/
def encounterFrame : EventsFrame :=
  { hasGaSessionIdCol := true,
    rows := [{ baseRow with
                timestamp := 2000000
                page_referrer := some (GAValue.vStr "late-arrival-first") },
             { baseRow with
                timestamp := 0
                page_referrer := some (GAValue.vStr "early-arrival-second") }] }

/-- The session row the sessionizer produces for encounterFrame. -/
def encounterSessionRow : SessionRow :=
  { user_pseudo_id := "u1", session_id := GAValue.vInt 100,
    session_start_time := 0, session_end_time := 2000000,
    session_duration_seconds := 2, pageviews := 2, engagement_time_msec := 0,
    referrer := some (GAValue.vStr "late-arrival-first"), device_category := none,
    operating_system := none, country := none, city := none,
    traffic_source := none, traffic_medium := none, date := "20240115" }

/-- Example frame with one row whose optional attribute columns are all
absent. -/
def bareFrame : EventsFrame :=
  { hasGaSessionIdCol := true, rows := [baseRow] }

/-- The session row the sessionizer produces for bareFrame. -/
def bareSessionRow : SessionRow :=
  { user_pseudo_id := "u1", session_id := GAValue.vInt 100,
    session_start_time := 0, session_end_time := 0,
    session_duration_seconds := 0, pageviews := 1, engagement_time_msec := 0,
    referrer := none, device_category := none, operating_system := none,
    country := none, city := none, traffic_source := none, traffic_medium := none,
    date := "20240115" }

/-- Example row list mixing a row with a session id and a row without. -/
def mixedRows : List TransformedRow :=
  [baseRow,
   { baseRow with
      ga_session_id := none
      timestamp := 5 }]

/-- The profile row the aggregator produces for the single-row frame. -/
def bareProfileRow : ProfileRow :=
  { user_pseudo_id := "u1", first_seen := 0, last_seen := 0, session_count := 1,
    event_count := 1, most_used_device := none, most_used_os := none,
    country := none, last_updated := 42 }

/-- Example stored profile table. -/
def storedProfiles : List ProfileRow :=
  [{ user_pseudo_id := "u1", first_seen := 10, last_seen := 20, session_count := 2,
     event_count := 5, most_used_device := some "mobile", most_used_os := some "iOS",
     country := some "JP", last_updated := 100 }]

/-- Example incoming profile batch: one existing user, one new user. -/
def incomingProfiles : List ProfileRow :=
  [{ user_pseudo_id := "u1", first_seen := 30, last_seen := 40, session_count := 1,
     event_count := 2, most_used_device := some "desktop",
     most_used_os := some "Windows", country := some "US", last_updated := 200 },
   { user_pseudo_id := "u2", first_seen := 35, last_seen := 36, session_count := 1,
     event_count := 1, most_used_device := none, most_used_os := none,
     country := none, last_updated := 200 }]

/-- Example parameter entry whose four value slots are all null. -/
def allNullParam : EventParam :=
  { key := "k", string_value := none, int_value := none, float_value := none,
    double_value := none }

/-- Example parameter entry with a populated string slot. -/
def strParam : EventParam :=
  { key := "k", string_value := some "v", int_value := none, float_value := none,
    double_value := none }

/-- Example parameter list: a matching entry whose three spec slots are
null but whose double slot is populated, followed by a matching entry
with a string value. -/
def allNullThenStrParams : List EventParam :=
  [{ key := "p", string_value := none, int_value := none, float_value := none,
     double_value := some (5 / 2) },
   { key := "p", string_value := some "later", int_value := none, float_value := none,
     double_value := none }]

/-- Example parameter entry carrying only a double value. -/
def doubleOnlyParam : EventParam :=
  { key := "q", string_value := none, int_value := none, float_value := none,
    double_value := some (7 / 4) }

/-- Example later entry with the same key and a string value. -/
def laterStrParam : EventParam :=
  { key := "q", string_value := some "after", int_value := none, float_value := none,
    double_value := none }

/-- Any session row in the sessionizer output is built from its group's
member list, whose head is the group's first row in encounter order: all
first-event attributes are copied from that head, which is a row of the
input frame. -/
theorem sessions_mem_structure (f : EventsFrame) (s : SessionRow)
    (hs : s ∈ create_user_sessions_table f) :
    ∃ first rest, groupRows f.rows (s.user_pseudo_id, s.session_id) = first :: rest ∧
      first ∈ f.rows ∧
      s.referrer = first.page_referrer ∧
      s.device_category = first.device_category ∧
      s.operating_system = first.device_operating_system ∧
      s.country = first.geo_country ∧
      s.city = first.geo_city ∧
      s.traffic_source = first.traffic_source_source ∧
      s.traffic_medium = first.traffic_source_medium ∧
      s.date = first.date := by
  unfold create_user_sessions_table at hs
  split at hs
  · exact absurd hs (List.not_mem_nil s)
  · split at hs
    · exact absurd hs (List.not_mem_nil s)
    · rw [List.mem_filterMap] at hs
      obtain ⟨k, hk, hmk⟩ := hs
      obtain ⟨ku, ks⟩ := k
      cases hgr : groupRows f.rows (ku, ks) with
      | nil => rw [hgr] at hmk; simp [mkSessionRow] at hmk
      | cons first rest =>
        rw [hgr] at hmk
        simp only [mkSessionRow] at hmk
        obtain rfl := Option.some.inj hmk
        have hfirst : first ∈ f.rows := by
          have hmem : first ∈ groupRows f.rows (ku, ks) := by
            rw [hgr]; exact List.mem_cons_self first rest
          exact (List.mem_filter.mp hmem).1
        exact ⟨first, rest, hgr, hfirst, rfl, rfl, rfl, rfl, rfl, rfl, rfl, rfl⟩

/-- Any profile row in the aggregator output is built from its user
group's member list: the mode statistics are computed over the group's
respective columns. -/
theorem profiles_mem_structure (rows : List TransformedRow) (now : Int) (p : ProfileRow)
    (hp : p ∈ create_user_profile_table rows now) :
    p.most_used_device =
        mostCommonValue ((userRows rows p.user_pseudo_id).map (fun r => r.device_category)) ∧
    p.most_used_os =
        mostCommonValue
          ((userRows rows p.user_pseudo_id).map (fun r => r.device_operating_system)) ∧
    p.country = mostCommonValue ((userRows rows p.user_pseudo_id).map (fun r => r.geo_country)) := by
  unfold create_user_profile_table at hp
  split at hp
  · exact absurd hp (List.not_mem_nil p)
  · rw [List.mem_filterMap] at hp
    obtain ⟨uid, huid, hmk⟩ := hp
    cases hur : userRows rows uid with
    | nil => rw [hur] at hmk; simp [mkProfileRow] at hmk
    | cons first rest =>
      rw [hur] at hmk
      simp only [mkProfileRow] at hmk
      obtain rfl := Option.some.inj hmk
      simp only
      rw [hur]
      exact ⟨rfl, rfl, rfl⟩

/-- If a column is none on every member of a group, its mode is none. -/
theorem mostCommonValue_all_none (vs : List (Option String))
    (h : vs.filterMap id = []) : mostCommonValue vs = none := by
  unfold mostCommonValue
  rw [h]
  rfl

/-- Dropping the null-session rows changes neither the group keys... -/
theorem sessionKeys_filter_isSome (rows : List TransformedRow) :
    sessionKeys (rows.filter (fun r => r.ga_session_id.isSome)) = sessionKeys rows := by
  unfold sessionKeys
  congr 1
  induction rows with
  | nil => rfl
  | cons r rs ih =>
    cases h : r.ga_session_id with
    | none => simp [List.filter_cons, List.filterMap_cons, h, ih]
    | some s => simp [List.filter_cons, List.filterMap_cons, h, ih]

/-- Filtering by a weaker predicate first does not change a filter. -/
theorem filter_filter_of_imp {α : Type} (p q : α → Bool) (l : List α)
    (h : ∀ a, q a = true → p a = true) :
    (l.filter p).filter q = l.filter q := by
  induction l with
  | nil => rfl
  | cons a as ih =>
    cases hq : q a with
    | true =>
      have hp : p a = true := h a hq
      simp [List.filter_cons, hp, hq, ih]
    | false =>
      cases hp : p a with
      | true => simp [List.filter_cons, hp, hq, ih]
      | false => simp [List.filter_cons, hp, hq, ih]

/-- ... nor any group's member list. -/
theorem groupRows_filter_isSome (rows : List TransformedRow) (k : String × GAValue) :
    groupRows (rows.filter (fun r => r.ga_session_id.isSome)) k = groupRows rows k := by
  unfold groupRows
  apply filter_filter_of_imp
  intro a ha
  have hconj := of_decide_eq_true ha
  rw [hconj.2]
  rfl

/-- Concrete evaluation of the sessionizer on the out-of-order frame. -/
theorem encounterFrame_eval :
    create_user_sessions_table encounterFrame = [encounterSessionRow] := by
  norm_num [create_user_sessions_table, sessionKeys, dedupFirst, dedupFirstAux, groupRows,
    mkSessionRow, listMin, listMax, gaIntPayload, encounterFrame, baseRow, encounterSessionRow,
    List.filterMap_cons, List.filter_cons]

/-- Concrete evaluation of the sessionizer on the bare single-row frame. -/
theorem bareFrame_eval :
    create_user_sessions_table bareFrame = [bareSessionRow] := by
  norm_num [create_user_sessions_table, sessionKeys, dedupFirst, dedupFirstAux, groupRows,
    mkSessionRow, listMin, listMax, gaIntPayload, bareFrame, baseRow, bareSessionRow,
    List.filterMap_cons, List.filter_cons]

/-- Concrete evaluation of the profile aggregator on the bare row. -/
theorem bareProfile_eval :
    create_user_profile_table [baseRow] 42 = [bareProfileRow] := by
  norm_num [create_user_profile_table, userKeys, userRows, dedupFirst, dedupFirstAux,
    mkProfileRow, listMin, listMax, mostCommonValue, value_counts, sortByCountDesc,
    insertByCount, baseRow, bareProfileRow, List.filterMap_cons, List.filter_cons]

/-- Claim C5: for every input sequence of raw events, including the empty
sequence, flattening produces exactly one output row per input event. -/
theorem flatten_preserves_row_count (events : List RawEvent) :
    (transform_events events).length = events.length := by
  simp [transform_events]

/-- Claim C7: for an empty raw event batch, flatten, sessionize and
profile aggregation each return an empty result, and process_single_date
returns the zero statistics and issues no sink call. -/
theorem empty_batch_short_circuits (b : Bool) (now : Int) (target_date : String) :
    transform_events [] = [] ∧
    create_user_sessions_table { hasGaSessionIdCol := b, rows := [] } = [] ∧
    create_user_profile_table [] now = [] ∧
    process_single_date [] now target_date =
      ({ events_processed := 0, sessions_processed := 0, users_processed := 0 }, []) :=
  ⟨rfl, rfl, rfl, rfl⟩

/-- Claim C9: the parameter lookup honors the double_value slot with
priority below float: for an entry whose string, integer and float slots
are all null but whose double slot is populated, the lookup returns the
double value instead of continuing the scan (the spec-modelled lookup,
which knows only the three spec slots, would skip the entry). -/
theorem lookup_double_slot_honored :
    extract_param (some [doubleOnlyParam, laterStrParam]) "q" =
      some (GAValue.vDouble (7 / 4)) ∧
    extract_param (some [doubleOnlyParam]) "q" = some (GAValue.vDouble (7 / 4)) ∧
    lookupSpec (some [doubleOnlyParam]) "q" = none :=
  ⟨rfl, rfl, rfl⟩

/-- Claim C3 counterexample: on a matching entry whose string, integer and
float slots are all null but whose double slot is populated, the source
lookup returns the double value and stops, while the lookup described by
the claim (priority set string, integer, float only; an all-null-slot
match does not stop the scan) would return the later entry's string. -/
theorem lookup_scan_spec_counterexample :
    extract_param (some allNullThenStrParams) "p" = some (GAValue.vDouble (5 / 2)) ∧
    lookupSpec (some allNullThenStrParams) "p" = some (GAValue.vStr "later") ∧
    extract_param (some allNullThenStrParams) "p" ≠
      lookupSpec (some allNullThenStrParams) "p" := by
  refine ⟨rfl, rfl, ?_⟩
  intro h
  rw [show extract_param (some allNullThenStrParams) "p" =
        some (GAValue.vDouble (5 / 2)) from rfl,
      show lookupSpec (some allNullThenStrParams) "p" =
        some (GAValue.vStr "later") from rfl] at h
  exact GAValue.noConfusion (Option.some.inj h)

/-- Claim C3 (amended): the lookup scans entries in order; for a
matching-key entry it returns the first non-null value slot in the fixed
priority order string, integer, float, double; a matching-key entry whose
four slots are all null does not stop the scan; a non-matching entry is
skipped; the empty or absent collection yields absent. -/
theorem lookup_scan_characterized :
    (∀ k : String, extract_param none k = none) ∧
    (∀ k : String, extract_param (some []) k = none) ∧
    (∀ (p : EventParam) (ps : List EventParam) (k : String), p.key ≠ k →
      extract_param (some (p :: ps)) k = extract_param (some ps) k) ∧
    (∀ (p : EventParam) (ps : List EventParam) (k : String), p.key = k →
      p.string_value = none → p.int_value = none → p.float_value = none →
      p.double_value = none →
      extract_param (some (p :: ps)) k = extract_param (some ps) k) ∧
    (∀ (p : EventParam) (ps : List EventParam) (k : String) (s : String), p.key = k →
      p.string_value = some s →
      extract_param (some (p :: ps)) k = some (GAValue.vStr s)) ∧
    (∀ (p : EventParam) (ps : List EventParam) (k : String) (n : Int), p.key = k →
      p.string_value = none → p.int_value = some n →
      extract_param (some (p :: ps)) k = some (GAValue.vInt n)) ∧
    (∀ (p : EventParam) (ps : List EventParam) (k : String) (x : ℚ), p.key = k →
      p.string_value = none → p.int_value = none → p.float_value = some x →
      extract_param (some (p :: ps)) k = some (GAValue.vFloat x)) ∧
    (∀ (p : EventParam) (ps : List EventParam) (k : String) (x : ℚ), p.key = k →
      p.string_value = none → p.int_value = none → p.float_value = none →
      p.double_value = some x →
      extract_param (some (p :: ps)) k = some (GAValue.vDouble x)) := by
  refine ⟨fun k => rfl, fun k => rfl, ?_, ?_, ?_, ?_, ?_, ?_⟩
  · intro p ps k hne
    simp [extract_param, extractParamScan, hne]
  · intro p ps k hk h1 h2 h3 h4
    simp [extract_param, extractParamScan, hk, h1, h2, h3, h4]
  · intro p ps k s hk h1
    simp [extract_param, extractParamScan, hk, h1]
  · intro p ps k n hk h1 h2
    simp [extract_param, extractParamScan, hk, h1, h2]
  · intro p ps k x hk h1 h2 h3
    simp [extract_param, extractParamScan, hk, h1, h2, h3]
  · intro p ps k x hk h1 h2 h3 h4
    simp [extract_param, extractParamScan, hk, h1, h2, h3, h4]

/-- Claim C3 (amended) witness: the characterized scan evaluated on
concrete entries: an all-null matching entry is skipped in favour of a
later entry, and a populated string slot is returned. -/
theorem lookup_scan_characterized_witness :
    extract_param (some [allNullParam, strParam]) "k" =
      extract_param (some [strParam]) "k" ∧
    extract_param (some [strParam]) "k" = some (GAValue.vStr "v") :=
  ⟨lookup_scan_characterized.2.2.2.1 allNullParam [strParam] "k" rfl rfl rfl rfl rfl,
   lookup_scan_characterized.2.2.2.2.1 strParam [] "k" "v" rfl rfl⟩

/-- Claim C1 counterexample: a click event whose parameters carry a
page_location receives a populated page_location cell in its flattened
row, because page_location / page_title / page_referrer are extracted as
cross-event-type common parameters for every row; so it is false that a
click row has all of the page-view columns absent. -/
theorem click_category_columns_counterexample :
    ¬ (∀ events : List RawEvent, ∀ r ∈ transform_events events,
        r.event_name = "click" →
        r.page_location = none ∧ r.page_title = none ∧ r.page_referrer = none ∧
        r.currency = none ∧ r.value = none ∧ r.transaction_id = none ∧
        r.tax = none ∧ r.shipping = none ∧ r.item_id = none ∧ r.item_name = none ∧
        r.item_quantity = none ∧ r.percent_scrolled = none) := by
  intro h
  have h2 := h [clickRawEvent] (transformEvent clickRawEvent)
    (List.mem_singleton.mpr rfl) rfl
  have h3 : (transformEvent clickRawEvent).page_location =
      some (GAValue.vStr "https://example.com/landing") := rfl
  rw [h2.1] at h3
  exact Option.noConfusion h3

/-- Claim C1 (amended): for every flattened row whose event name is click,
all commerce-specific columns (currency, value, transaction_id, tax,
shipping, item_id, item_name, item_quantity) and the scroll-specific
column (percent_scrolled) are absent; the page_location / page_title /
page_referrer columns are cross-event-type columns extracted for every
row from the event's own parameters, so they are not forced absent on a
click row. -/
theorem click_rows_commerce_scroll_absent (events : List RawEvent) (r : TransformedRow)
    (hr : r ∈ transform_events events) (hname : r.event_name = "click") :
    r.currency = none ∧ r.value = none ∧ r.transaction_id = none ∧ r.tax = none ∧
    r.shipping = none ∧ r.item_id = none ∧ r.item_name = none ∧
    r.item_quantity = none ∧ r.percent_scrolled = none := by
  obtain ⟨e, he, rfl⟩ := List.mem_map.mp hr
  have hn : e.event_name = "click" := hname
  have hecom : isEcommerceEvent "click" = false := rfl
  refine ⟨?_, ?_, ?_, ?_, ?_, ?_, ?_, ?_, ?_⟩ <;>
    simp [transformEvent, ecommerceParam, firstItemField, scrollParam, hn, hecom]

/-- Claim C1 (amended) witness: the flattened row of the concrete click
event has all commerce and scroll columns absent. -/
theorem click_rows_commerce_scroll_absent_witness :
    (transformEvent clickRawEvent).currency = none ∧
    (transformEvent clickRawEvent).value = none ∧
    (transformEvent clickRawEvent).transaction_id = none ∧
    (transformEvent clickRawEvent).tax = none ∧
    (transformEvent clickRawEvent).shipping = none ∧
    (transformEvent clickRawEvent).item_id = none ∧
    (transformEvent clickRawEvent).item_name = none ∧
    (transformEvent clickRawEvent).item_quantity = none ∧
    (transformEvent clickRawEvent).percent_scrolled = none :=
  click_rows_commerce_scroll_absent [clickRawEvent] (transformEvent clickRawEvent)
    (List.mem_singleton.mpr rfl) rfl

/-- Claim C2: the incoming profile batch is split into two disjoint sets
by membership of the pseudo id in the existing-key set (together they
cover the batch), and the merge applied to the stored table preserves
every stored row's user_pseudo_id and first_seen while the update writes
exactly last_seen, session_count, event_count, most_used_device,
most_used_os, country and last_updated from the incoming row. -/
theorem profile_load_split_and_merge (df : List ProfileRow) (existing : List String)
    (stored : List ProfileRow) :
    (∀ r ∈ df, r ∈ (load_user_profiles_split df existing).1 ∨
        r ∈ (load_user_profiles_split df existing).2) ∧
    (∀ r : ProfileRow, ¬(r ∈ (load_user_profiles_split df existing).1 ∧
        r ∈ (load_user_profiles_split df existing).2)) ∧
    (∀ r ∈ (load_user_profiles_split df existing).1, r.user_pseudo_id ∉ existing) ∧
    (∀ r ∈ (load_user_profiles_split df existing).2, r.user_pseudo_id ∈ existing) ∧
    ((applyProfileMerge stored (load_user_profiles_split df existing).2).map
        (fun t => (t.user_pseudo_id, t.first_seen)) =
      stored.map (fun t => (t.user_pseudo_id, t.first_seen))) ∧
    (∀ t s : ProfileRow,
      (mergeProfile t s).user_pseudo_id = t.user_pseudo_id ∧
      (mergeProfile t s).first_seen = t.first_seen ∧
      (mergeProfile t s).last_seen = s.last_seen ∧
      (mergeProfile t s).session_count = s.session_count ∧
      (mergeProfile t s).event_count = s.event_count ∧
      (mergeProfile t s).most_used_device = s.most_used_device ∧
      (mergeProfile t s).most_used_os = s.most_used_os ∧
      (mergeProfile t s).country = s.country ∧
      (mergeProfile t s).last_updated = s.last_updated) := by
  refine ⟨?_, ?_, ?_, ?_, ?_, fun t s => ⟨rfl, rfl, rfl, rfl, rfl, rfl, rfl, rfl, rfl⟩⟩
  · intro r hr
    by_cases hmem : r.user_pseudo_id ∈ existing
    · right
      exact List.mem_filter.mpr ⟨hr, by simpa using hmem⟩
    · left
      exact List.mem_filter.mpr ⟨hr, by simpa using hmem⟩
  · rintro r ⟨h1, h2⟩
    have hn := (List.mem_filter.mp h1).2
    have hy := (List.mem_filter.mp h2).2
    simp only [decide_eq_true_eq] at hn hy
    exact hn hy
  · intro r hr
    have hn := (List.mem_filter.mp hr).2
    simpa using hn
  · intro r hr
    have hy := (List.mem_filter.mp hr).2
    simpa using hy
  · rw [applyProfileMerge, List.map_map]
    apply List.map_congr_left
    intro t ht
    cases hfind : (load_user_profiles_split df existing).2.find?
        (fun s => s.user_pseudo_id == t.user_pseudo_id) with
    | none => simp [hfind]
    | some s => simp [hfind, mergeProfile]

/-- Claim C2 witness: on the concrete stored table and incoming batch
(one matched user, one new user), the merged table keeps each stored
(user_pseudo_id, first_seen) pair unchanged, and the matched users'
split membership is as computed. -/
theorem profile_load_split_and_merge_witness :
    ((applyProfileMerge storedProfiles
        (load_user_profiles_split incomingProfiles
          (existingProfileKeys storedProfiles incomingProfiles)).2).map
        (fun t => (t.user_pseudo_id, t.first_seen)) =
      storedProfiles.map (fun t => (t.user_pseudo_id, t.first_seen))) :=
  (profile_load_split_and_merge incomingProfiles
    (existingProfileKeys storedProfiles incomingProfiles) storedProfiles).2.2.2.2.1

/-- Claim C4: a frame whose schema lacks the ga_session_id column makes
the sessionizer return an empty result (the missing-session-key failure
is reported for the whole call, no partial data); on a frame that has the
column, rows whose session id is absent are excluded from every group, so
dropping them does not change the output. -/
theorem sessionize_session_key_handling :
    (∀ f : EventsFrame, f.hasGaSessionIdCol = false →
      create_user_sessions_table f = []) ∧
    (∀ rows : List TransformedRow,
      create_user_sessions_table { hasGaSessionIdCol := true, rows := rows } =
        create_user_sessions_table
          { hasGaSessionIdCol := true,
            rows := rows.filter (fun r => r.ga_session_id.isSome) }) := by
  constructor
  · intro f hf
    unfold create_user_sessions_table
    rw [hf]
    simp
  · intro rows
    by_cases hrows : rows.isEmpty
    · rw [List.isEmpty_iff.mp hrows]
      rfl
    · by_cases hfil : (rows.filter (fun r => r.ga_session_id.isSome)).isEmpty
      · have hkeys : sessionKeys rows = [] := by
          rw [← sessionKeys_filter_isSome rows, List.isEmpty_iff.mp hfil]
          rfl
        simp [create_user_sessions_table, hrows, hfil, hkeys]
      · simp [create_user_sessions_table, hrows, hfil, sessionKeys_filter_isSome,
          groupRows_filter_isSome]

/-- Claim C4 witness: on the concrete mixed row list, the sessionizer
returns empty when the session column is missing, and excluding the
null-session row leaves its output unchanged. -/
theorem sessionize_session_key_handling_witness :
    create_user_sessions_table { hasGaSessionIdCol := false, rows := mixedRows } = [] ∧
    create_user_sessions_table { hasGaSessionIdCol := true, rows := mixedRows } =
      create_user_sessions_table
        { hasGaSessionIdCol := true,
          rows := mixedRows.filter (fun r => r.ga_session_id.isSome) } :=
  ⟨sessionize_session_key_handling.1
      { hasGaSessionIdCol := false, rows := mixedRows } rfl,
   sessionize_session_key_handling.2 mixedRows⟩

/-- Claim C6: every session row's first-event attributes (referrer,
device category, operating system, country, city, traffic source,
traffic medium) are taken from its group's first row in encounter order,
the head of the group's member list in input order, independently of
timestamps. -/
theorem session_first_event_attributes_encounter_order (f : EventsFrame) (s : SessionRow)
    (hs : s ∈ create_user_sessions_table f) :
    ∃ first rest, groupRows f.rows (s.user_pseudo_id, s.session_id) = first :: rest ∧
      s.referrer = first.page_referrer ∧
      s.device_category = first.device_category ∧
      s.operating_system = first.device_operating_system ∧
      s.country = first.geo_country ∧
      s.city = first.geo_city ∧
      s.traffic_source = first.traffic_source_source ∧
      s.traffic_medium = first.traffic_source_medium := by
  obtain ⟨first, rest, hgr, -, h1, h2, h3, h4, h5, h6, h7, -⟩ :=
    sessions_mem_structure f s hs
  exact ⟨first, rest, hgr, h1, h2, h3, h4, h5, h6, h7⟩

/-- Claim C6 witness: on the concrete out-of-order frame (the group's
first row in encounter order has the larger timestamp), the session row's
referrer is the encounter-first row's referrer, not the
smallest-timestamp row's. -/
theorem session_first_event_attributes_encounter_order_witness :
    ∃ first rest,
      groupRows encounterFrame.rows
        (encounterSessionRow.user_pseudo_id, encounterSessionRow.session_id) =
        first :: rest ∧
      encounterSessionRow.referrer = first.page_referrer ∧
      encounterSessionRow.device_category = first.device_category ∧
      encounterSessionRow.operating_system = first.device_operating_system ∧
      encounterSessionRow.country = first.geo_country ∧
      encounterSessionRow.city = first.geo_city ∧
      encounterSessionRow.traffic_source = first.traffic_source_source ∧
      encounterSessionRow.traffic_medium = first.traffic_source_medium :=
  session_first_event_attributes_encounter_order encounterFrame encounterSessionRow
    (by rw [encounterFrame_eval]; exact List.mem_singleton.mpr rfl)

/-- Claim C8: for a user group in which a mode column (device category,
operating system, country) has no non-absent values, the profile row's
corresponding field is absent. -/
theorem profile_mode_absent_when_no_values (rows : List TransformedRow) (now : Int)
    (p : ProfileRow) (hp : p ∈ create_user_profile_table rows now) :
    ((userRows rows p.user_pseudo_id).filterMap (fun r => r.device_category) = [] →
      p.most_used_device = none) ∧
    ((userRows rows p.user_pseudo_id).filterMap (fun r => r.device_operating_system) = []
      → p.most_used_os = none) ∧
    ((userRows rows p.user_pseudo_id).filterMap (fun r => r.geo_country) = [] →
      p.country = none) := by
  obtain ⟨hdev, hos, hcountry⟩ := profiles_mem_structure rows now p hp
  refine ⟨fun h => ?_, fun h => ?_, fun h => ?_⟩
  · rw [hdev]
    apply mostCommonValue_all_none
    rw [List.filterMap_map]
    simpa using h
  · rw [hos]
    apply mostCommonValue_all_none
    rw [List.filterMap_map]
    simpa using h
  · rw [hcountry]
    apply mostCommonValue_all_none
    rw [List.filterMap_map]
    simpa using h

/-- Claim C8 witness: the concrete single-row group has no device, OS or
country values, and its profile row has all three mode fields absent. -/
theorem profile_mode_absent_when_no_values_witness :
    bareProfileRow.most_used_device = none ∧ bareProfileRow.most_used_os = none ∧
    bareProfileRow.country = none := by
  have h := profile_mode_absent_when_no_values [baseRow] 42 bareProfileRow
    (by rw [bareProfile_eval]; exact List.mem_singleton.mpr rfl)
  exact ⟨h.1 (by decide), h.2.1 (by decide), h.2.2 (by decide)⟩

/-- Claim C10: the sessionizer is total on frames with the required
columns, and a first-event attribute column that is absent from the input
(none on every row) yields an absent value in every session row. -/
theorem sessionize_missing_attr_columns_yield_absent (f : EventsFrame) (s : SessionRow)
    (hs : s ∈ create_user_sessions_table f) :
    ((∀ r ∈ f.rows, r.page_referrer = none) → s.referrer = none) ∧
    ((∀ r ∈ f.rows, r.device_category = none) → s.device_category = none) ∧
    ((∀ r ∈ f.rows, r.device_operating_system = none) → s.operating_system = none) ∧
    ((∀ r ∈ f.rows, r.geo_country = none) → s.country = none) ∧
    ((∀ r ∈ f.rows, r.geo_city = none) → s.city = none) ∧
    ((∀ r ∈ f.rows, r.traffic_source_source = none) → s.traffic_source = none) ∧
    ((∀ r ∈ f.rows, r.traffic_source_medium = none) → s.traffic_medium = none) := by
  obtain ⟨first, rest, hgr, hfirst, h1, h2, h3, h4, h5, h6, h7, -⟩ :=
    sessions_mem_structure f s hs
  exact ⟨fun h => by rw [h1]; exact h first hfirst,
         fun h => by rw [h2]; exact h first hfirst,
         fun h => by rw [h3]; exact h first hfirst,
         fun h => by rw [h4]; exact h first hfirst,
         fun h => by rw [h5]; exact h first hfirst,
         fun h => by rw [h6]; exact h first hfirst,
         fun h => by rw [h7]; exact h first hfirst⟩

/-- Claim C10 witness: on the concrete frame whose only row has all seven
optional attribute columns absent, the session row carries absent values
for all seven attributes. -/
theorem sessionize_missing_attr_columns_yield_absent_witness :
    bareSessionRow.referrer = none ∧ bareSessionRow.device_category = none ∧
    bareSessionRow.operating_system = none ∧ bareSessionRow.country = none ∧
    bareSessionRow.city = none ∧ bareSessionRow.traffic_source = none ∧
    bareSessionRow.traffic_medium = none := by
  have h := sessionize_missing_attr_columns_yield_absent bareFrame bareSessionRow
    (by rw [bareFrame_eval]; exact List.mem_singleton.mpr rfl)
  exact ⟨h.1 (by decide), h.2.1 (by decide), h.2.2.1 (by decide), h.2.2.2.1 (by decide),
         h.2.2.2.2.1 (by decide), h.2.2.2.2.2.1 (by decide), h.2.2.2.2.2.2 (by decide)⟩
